import Mathlib

/-!
Verification of the teleups repository (UPS monitor with Telegram alerts).

The development shallowly embeds the two modules the claims are about:
`nut.py` (the NUT device client) and `ups_monitor.py` (the polling state
machine).  Python dictionaries of decoded UPS variables are modelled as
association lists `List (String × String)` (first match wins, matching
dict semantics since dict keys are unique); Python exceptions are
modelled by `Option` (`none` = the call raised); the results of the raw
PyNUTClient network operations are modelled as `Except String` values fed
to the wrappers, so that both the success and the communication-error
paths of `__handle_operation` are represented.  One poll cycle reads a
`Device` snapshot (the decoded variable dictionaries the repeated
`get_ups_vars` calls of that cycle would return), and notifications are
collected as values instead of being posted over HTTP.
-/

namespace TeleUPS

/-! ### Python primitives used by the source -/

/-- Python `dict.get(key)` on a string-keyed dict, as first-match lookup
in an association list. -/
def getVar : List (String × String) → String → Option String
  | [], _ => none
  | (k, v) :: rest, key => if k = key then some v else getVar rest key

/-- Python `dict.get(key, default)` with a string default. -/
def getVarD (vars : List (String × String)) (key dflt : String) : String :=
  (getVar vars key).getD dflt

/-- Whether `needle` occurs at the head of `hay` (helper for the Python
substring test). -/
def matchesAt : List Char → List Char → Bool
  | [], _ => true
  | _ :: _, [] => false
  | a :: as, b :: bs => (a == b) && matchesAt as bs

/-- Whether `needle` occurs contiguously anywhere in `hay`. -/
def hasSub (needle : List Char) : List Char → Bool
  | [] => matchesAt needle []
  | l@(_ :: bs) => matchesAt needle l || hasSub needle bs

/-- Python `needle in hay` on strings: contiguous substring containment. -/
def strContains (hay needle : String) : Bool :=
  hasSub needle.data hay.data

/-- Helper for `pySplit`: walk the characters, `acc` holds the current
word reversed. -/
def splitWsAux : List Char → List Char → List String
  | [], acc => if acc.isEmpty then [] else [String.mk acc.reverse]
  | c :: cs, acc =>
    if c.isWhitespace then
      if acc.isEmpty then splitWsAux cs [] else String.mk acc.reverse :: splitWsAux cs []
    else
      splitWsAux cs (c :: acc)

/-- Python `str.split()` with no argument: split on runs of whitespace,
dropping empty words (so the empty string yields `[]`). -/
def pySplit (s : String) : List String :=
  splitWsAux s.data []

/-- Digit-string accumulator for `pyInt`; `none` on a non-digit. -/
def parseDigitsAux : List Char → Nat → Option Nat
  | [], acc => some acc
  | c :: cs, acc => if c.isDigit then parseDigitsAux cs (acc * 10 + (c.toNat - 48)) else none

/-- Parse a nonempty all-digit character list. -/
def parseDigits : List Char → Option Nat
  | [] => none
  | c :: cs => parseDigitsAux (c :: cs) 0

/-- Python `str.strip()` restricted to the characters of the string. -/
def pyTrim (s : String) : List Char :=
  ((s.data.dropWhile Char.isWhitespace).reverse.dropWhile Char.isWhitespace).reverse

/-- Python `int(s)` on a string: optional surrounding whitespace, optional
sign, then decimal digits; `none` models the `ValueError` raise. -/
def pyInt (s : String) : Option Int :=
  match pyTrim s with
  | '-' :: rest => (parseDigits rest).map fun n => -(n : Int)
  | '+' :: rest => (parseDigits rest).map fun n => (n : Int)
  | cs => (parseDigits cs).map fun n => (n : Int)

/-- Python `", ".join(l)`. -/
def joinComma : List String → String
  | [] => ""
  | [s] => s
  | s :: rest => s ++ ", " ++ joinComma rest

/-! ### nut.py: NUTClient

The raw PyNUTClient operation outcome is passed in as an `Except`:
`.ok` is a normal protocol reply, `.error` a raised communication error.
-/

/-- `NUTClient.__handle_operation`: run the operation, return its result,
or `None` (here `none`) if it raised. -/
def handleOperation {α : Type} (operation : Except String α) : Option α :=
  match operation with
  | .ok a => some a
  | .error _ => none

/-- `NUTClient.get_ups_vars`: wrap `GetUPSVars` with `__handle_operation`;
a `None` or empty reply gives `{}` (the `__decode_byte_dict` UTF-8
decoding is the identity in this model). -/
def get_ups_vars (op : Except String (List (String × String))) : List (String × String) :=
  match handleOperation op with
  | some response => if response.isEmpty then [] else response
  | none => []

/-- `NUTClient.get_ups_read_write_vars`: same wrapping for `GetRWVars`. -/
def get_ups_read_write_vars (op : Except String (List (String × String))) :
    List (String × String) :=
  match handleOperation op with
  | some response => if response.isEmpty then [] else response
  | none => []

/-- `NUTClient.is_ups_available`: returns `self.__handle_operation(...)`
directly, so a raised probe yields Python `None` (`none`), not `False`. -/
def is_ups_available (op : Except String Bool) : Option Bool :=
  handleOperation op

/-- `NUTClient.get_current_power_draw` on the fetched variables dict:
`int(ups_vars.get("ups.realpower", "0"))`. -/
def get_current_power_draw (ups_vars : List (String × String)) : Option Int :=
  pyInt (getVarD ups_vars "ups.realpower" "0")

/-- `NUTClient.get_battery_charge_percentage` on the fetched dict:
`int(ups_vars.get("battery.charge", 0)) if ups_vars else 0` (the default
`0` is already an int, so only a present malformed value can raise). -/
def get_battery_charge_percentage (ups_vars : List (String × String)) : Option Int :=
  if ups_vars.isEmpty then some 0
  else
    match getVar ups_vars "battery.charge" with
    | none => some 0
    | some s => pyInt s

/-- `NUTClient.get_battery_charge_low_percentage` on the fetched
read-write dict: `int(ups_rwvars.get("battery.charge.low", 0)) if ups_rwvars else 0`. -/
def get_battery_charge_low_percentage (ups_rwvars : List (String × String)) : Option Int :=
  if ups_rwvars.isEmpty then some 0
  else
    match getVar ups_rwvars "battery.charge.low" with
    | none => some 0
    | some s => pyInt s

/-- `NUTClient.is_ups_on_battery` on the fetched dict:
`"OB" in ups_vars.get("ups.status") if ups_vars else False`.
Note the Python `in` on strings is a substring test, and
`ups_vars.get("ups.status")` is `None` when the key is absent, making the
membership test raise `TypeError` (`none` here) for a non-empty dict
without the key. -/
def is_ups_on_battery (ups_vars : List (String × String)) : Option Bool :=
  if ups_vars.isEmpty then some false
  else
    match getVar ups_vars "ups.status" with
    | none => none
    | some s => some (strContains s "OB")

/-- The `status_map` dict of `NUTClient.get_ups_status`. -/
def status_map : List (String × String) :=
  [("OL", "On Line"), ("OB", "On Battery"), ("LB", "Low Battery"), ("CHRG", "Charging"),
   ("DISCHRG", "Discharging"), ("BYPS", "Bypass"), ("OFF", "Offline"), ("TRIM", "SmartTrim"),
   ("BOOST", "SmartBoost")]

/-- `NUTClient.get_ups_status` on the fetched dict: split
`ups.status` (default `""`) into codes, map each through `status_map`
(default description `"Unknown status"`), drop the unknown descriptions,
and join the known ones with `", "`; empty dict, absent key or no known
code gives `"Unknown status"`. -/
def get_ups_status (ups_vars : List (String × String)) : String :=
  if ups_vars.isEmpty then "Unknown status"
  else
    let status_codes := pySplit (getVarD ups_vars "ups.status" "")
    let status_descriptions := status_codes.map fun code => getVarD status_map code "Unknown status"
    let known_statuses := status_descriptions.filter fun desc => desc != "Unknown status"
    if known_statuses.isEmpty then "Unknown status" else joinComma known_statuses

/-- One poll-cycle snapshot of the device: the decoded variable dicts the
`get_ups_vars` / `get_ups_read_write_vars` calls of that cycle return. -/
structure Device where
  upsVars : List (String × String)
  upsRWVars : List (String × String)

/-- `NUTClient.is_ups_battery_low(ignore_ob)`: `False` when not on
battery and not overridden, else the comparison of charge percentage with
the low threshold; the initial `is_ups_on_battery` call always happens
first and its raise propagates. -/
def is_ups_battery_low (d : Device) (ignore_ob : Bool) : Option Bool :=
  (is_ups_on_battery d.upsVars).bind fun on_battery =>
    if !on_battery && !ignore_ob then some false
    else
      (get_battery_charge_percentage d.upsVars).bind fun pct =>
        (get_battery_charge_low_percentage d.upsRWVars).bind fun low_thr =>
          some (decide (pct ≤ low_thr))

/-! ### ups_monitor.py: UPSMonitor

Notifications are collected as values; `TelegramNotifier.send_notification`
never raises (it catches its HTTP errors), so sending is pure here.  The
monitor state holds exactly the two booleans the class mutates.
-/

/-- One (title, body) pair handed to
`TelegramNotifier.send_notification`. -/
structure Notification where
  title : String
  body : String

/-- The two mutable booleans of `UPSMonitor`, both `False` in
`__init__`. -/
structure MonitorState where
  last_ups_on_battery_status : Bool
  last_ups_low_battery_status : Bool

/-- `UPSMonitor.__init__` state: both status booleans start `False`. -/
def initState : MonitorState := ⟨false, false⟩

/-- `UPSMonitor.send_ups_status_notification(title)`: compose the status
message (battery percentage, status description, low-battery with
`ignore_ob=True`, power draw) and send it with the suffixed title; any
raise in the queried facts propagates (`none`). -/
def send_ups_status_notification (d : Device) (title : String) : Option Notification :=
  (get_battery_charge_percentage d.upsVars).bind fun pct =>
    (is_ups_battery_low d true).bind fun low =>
      (get_current_power_draw d.upsVars).bind fun watts =>
        some { title := title ++ "\n" ++ "UPS Status Information"
               body := "Battery Percentage: <b>" ++ toString pct ++ "%</b>\n"
                    ++ "Status: <b>" ++ get_ups_status d.upsVars ++ "</b>\n"
                    ++ "Low Battery: <b>" ++ (if low then "Yes" else "No") ++ "</b>\n"
                    ++ "Power: <b>" ++ toString watts ++ " watt</b>" }

/-- `UPSMonitor.handle_power_outage`: send the "Power outage!" status
notification, read the charge percentage (used only for the log line),
re-check low battery with the strict default `ignore_ob=False`, send
"Low battery!" if it is low now and `last_ups_low_battery_status` was
`False`, and store the fresh low status in either case. -/
def handle_power_outage (d : Device) (ms : MonitorState) :
    Option (MonitorState × List Notification) :=
  (send_ups_status_notification d "Power outage!").bind fun n1 =>
    (get_battery_charge_percentage d.upsVars).bind fun _ =>
      (is_ups_battery_low d false).bind fun cur_low =>
        if cur_low && !ms.last_ups_low_battery_status then
          (send_ups_status_notification d "Low battery!").bind fun n2 =>
            some ({ ms with last_ups_low_battery_status := cur_low }, [n1, n2])
        else
          some ({ ms with last_ups_low_battery_status := cur_low }, [n1])

/-- `UPSMonitor.handle_power_restoration`: send the "Power restoration!"
status notification; the state fields are untouched. -/
def handle_power_restoration (d : Device) (ms : MonitorState) :
    Option (MonitorState × List Notification) :=
  (send_ups_status_notification d "Power restoration!").bind fun n =>
    some (ms, [n])

/-- One iteration of the `UPSMonitor.monitor_ups` loop body on a device
snapshot: read `is_ups_on_battery`, dispatch on the
(`last_ups_on_battery_status`, current) pair, then unconditionally store
the current reading in `last_ups_on_battery_status`.  The result lists
the notifications sent this cycle; `none` models a cycle whose uncaught
raise kills the loop. -/
def monitor_step (d : Device) (ms : MonitorState) :
    Option (MonitorState × List Notification) :=
  (is_ups_on_battery d.upsVars).bind fun cur =>
    (if !ms.last_ups_on_battery_status && cur then handle_power_outage d ms
     else if ms.last_ups_on_battery_status && !cur then handle_power_restoration d ms
     else some (ms, [])).bind fun r =>
      some ({ r.1 with last_ups_on_battery_status := cur }, r.2)

/-- Run the loop over a finite list of per-cycle device snapshots,
concatenating the notifications in the order they are sent. -/
def monitor_run : List Device → MonitorState → Option (MonitorState × List Notification)
  | [], ms => some (ms, [])
  | d :: ds, ms =>
    (monitor_step d ms).bind fun r =>
      (monitor_run ds r.1).bind fun rr => some (rr.1, r.2 ++ rr.2)

/-- Whether a sent notification was triggered with title `t` (the sender
suffixes the title with the fixed second line). -/
def titled (n : Notification) (t : String) : Bool :=
  decide (n.title = t ++ "\n" ++ "UPS Status Information")

/-! ### Concrete device snapshots used by witnesses and counterexamples -/

/-- On battery, charge 10 at threshold 20: an outage poll that is low. -/
def dOBlow : Device :=
  ⟨[("ups.status", "OB DISCHRG"), ("battery.charge", "10"), ("ups.realpower", "50")],
   [("battery.charge.low", "20")]⟩

/-- On mains, charge 80 at threshold 20: a healthy poll. -/
def dOL : Device :=
  ⟨[("ups.status", "OL"), ("battery.charge", "80"), ("ups.realpower", "50")],
   [("battery.charge.low", "20")]⟩

/-- On mains but charge 10 at threshold 20: the two `is_ups_battery_low`
modes disagree here (`ignore_ob=True` gives true, the strict default
gives false). -/
def dOLlow : Device :=
  ⟨[("ups.status", "OL"), ("battery.charge", "10"), ("ups.realpower", "50")],
   [("battery.charge.low", "20")]⟩

/-! ### Helper lemmas -/

lemma send_some_title (d : Device) (t : String) (n : Notification)
    (h : send_ups_status_notification d t = some n) :
    n.title = t ++ "\n" ++ "UPS Status Information" := by
  rw [send_ups_status_notification] at h
  simp only [Option.bind_eq_some, Option.some.injEq] at h
  obtain ⟨pct, -, low, -, watts, -, hn⟩ := h
  subst hn
  rfl

lemma outage_detail (d : Device) (ms : MonitorState) (r : MonitorState × List Notification)
    (h : handle_power_outage d ms = some r) :
    ∃ low, is_ups_battery_low d false = some low
      ∧ r.1 = { ms with last_ups_low_battery_status := low }
      ∧ r.2.countP (fun n => titled n "Low battery!")
          = (if low && !ms.last_ups_low_battery_status then 1 else 0)
      ∧ r.2.countP (fun n => titled n "Power outage!") = 1
      ∧ r.2.countP (fun n => titled n "Power restoration!") = 0 := by
  rw [handle_power_outage] at h
  simp only [Option.bind_eq_some] at h
  obtain ⟨n1, hn1, pct, -, low, hlow, h⟩ := h
  have ht1 := send_some_title d _ n1 hn1
  refine ⟨low, hlow, ?_⟩
  cases hfire : low && !ms.last_ups_low_battery_status with
  | true =>
    rw [hfire, if_pos rfl] at h
    simp only [Option.bind_eq_some, Option.some.injEq] at h
    obtain ⟨n2, hn2, hr⟩ := h
    have ht2 := send_some_title d _ n2 hn2
    subst hr
    have e1 : titled n1 "Low battery!" = false := by simp only [titled, ht1]; decide
    have e2 : titled n2 "Low battery!" = true := by simp only [titled, ht2]; decide
    have e3 : titled n1 "Power outage!" = true := by simp only [titled, ht1]; decide
    have e4 : titled n2 "Power outage!" = false := by simp only [titled, ht2]; decide
    have e5 : titled n1 "Power restoration!" = false := by simp only [titled, ht1]; decide
    have e6 : titled n2 "Power restoration!" = false := by simp only [titled, ht2]; decide
    simp [List.countP_cons, e1, e2, e3, e4, e5, e6]
  | false =>
    rw [hfire, if_neg Bool.false_ne_true] at h
    simp only [Option.some.injEq] at h
    subst h
    have e1 : titled n1 "Low battery!" = false := by simp only [titled, ht1]; decide
    have e3 : titled n1 "Power outage!" = true := by simp only [titled, ht1]; decide
    have e5 : titled n1 "Power restoration!" = false := by simp only [titled, ht1]; decide
    simp [List.countP_cons, e1, e3, e5]

lemma restoration_detail (d : Device) (ms : MonitorState) (r : MonitorState × List Notification)
    (h : handle_power_restoration d ms = some r) :
    r.1 = ms
    ∧ r.2.countP (fun n => titled n "Low battery!") = 0
    ∧ r.2.countP (fun n => titled n "Power outage!") = 0
    ∧ r.2.countP (fun n => titled n "Power restoration!") = 1 := by
  rw [handle_power_restoration] at h
  simp only [Option.bind_eq_some, Option.some.injEq] at h
  obtain ⟨n, hn, hr⟩ := h
  have ht := send_some_title d _ n hn
  subst hr
  have e1 : titled n "Low battery!" = false := by simp only [titled, ht]; decide
  have e2 : titled n "Power outage!" = false := by simp only [titled, ht]; decide
  have e3 : titled n "Power restoration!" = true := by simp only [titled, ht]; decide
  simp [List.countP_cons, e1, e2, e3]

lemma monitor_step_cases (d : Device) (ms : MonitorState)
    (x : MonitorState × List Notification) (cur : Bool)
    (hcur : is_ups_on_battery d.upsVars = some cur)
    (hstep : monitor_step d ms = some x) :
    ∃ r : MonitorState × List Notification,
      x = ({ r.1 with last_ups_on_battery_status := cur }, r.2)
      ∧ ((!ms.last_ups_on_battery_status && cur) = true ∧ handle_power_outage d ms = some r
        ∨ (ms.last_ups_on_battery_status && !cur) = true ∧ handle_power_restoration d ms = some r
        ∨ ms.last_ups_on_battery_status = cur ∧ r = (ms, [])) := by
  rw [monitor_step, hcur] at hstep
  simp only [Option.some_bind, Option.bind_eq_some, Option.some.injEq] at hstep
  obtain ⟨r, hr, hx⟩ := hstep
  refine ⟨r, hx.symm, ?_⟩
  cases h1 : !ms.last_ups_on_battery_status && cur with
  | true =>
    rw [h1, if_pos rfl] at hr
    exact Or.inl ⟨rfl, hr⟩
  | false =>
    rw [h1, if_neg Bool.false_ne_true] at hr
    cases h2 : ms.last_ups_on_battery_status && !cur with
    | true =>
      rw [h2, if_pos rfl] at hr
      exact Or.inr (Or.inl ⟨rfl, hr⟩)
    | false =>
      rw [h2, if_neg Bool.false_ne_true] at hr
      simp only [Option.some.injEq] at hr
      refine Or.inr (Or.inr ⟨?_, hr.symm⟩)
      cases hl : ms.last_ups_on_battery_status <;> cases hc : cur <;>
        simp [hl, hc] at h1 h2 ⊢

lemma getVar_value_mem :
    ∀ (t : List (String × String)) (k v : String), getVar t k = some v → v ∈ t.map Prod.snd := by
  intro t
  induction t with
  | nil => intro k v h; simp [getVar] at h
  | cons p rest ih =>
    intro k v h
    obtain ⟨a, b⟩ := p
    rw [getVar] at h
    by_cases hk : a = k
    · rw [if_pos hk] at h
      simp only [Option.some.injEq] at h
      subst h
      exact List.mem_cons_self _ _
    · rw [if_neg hk] at h
      exact List.mem_cons_of_mem _ (ih k v h)

lemma status_map_value_ne (c v : String) (h : getVar status_map c = some v) :
    v ≠ "Unknown status" := by
  have hm := getVar_value_mem status_map c v h
  simp only [status_map, List.map_cons, List.map_nil, List.mem_cons, List.not_mem_nil,
    or_false] at hm
  rcases hm with h | h | h | h | h | h | h | h | h <;> subst h <;> decide

lemma known_filter (codes : List String) :
    (codes.map fun code => getVarD status_map code "Unknown status").filter
        (fun desc => desc != "Unknown status")
      = codes.filterMap fun c => getVar status_map c := by
  induction codes with
  | nil => rfl
  | cons c cs ih =>
    simp only [getVarD] at ih ⊢
    simp only [List.map_cons, List.filter_cons, List.filterMap_cons]
    cases hc : getVar status_map c with
    | none => simp [hc, ih]
    | some v =>
      have hv : v ≠ "Unknown status" := status_map_value_ne c v hc
      simp [hc, ih, hv]

lemma matchesAt_append (n : List Char) :
    ∀ fixed tail : List Char, matchesAt n fixed = true → matchesAt n (fixed ++ tail) = true := by
  induction n with
  | nil => intro fixed tail _; rfl
  | cons a as ih =>
    intro fixed tail h
    cases fixed with
    | nil => exact absurd h (by rw [matchesAt]; simp)
    | cons b bs =>
      rw [matchesAt] at h
      rw [List.cons_append, matchesAt]
      simp only [Bool.and_eq_true] at h ⊢
      exact ⟨h.1, ih bs tail h.2⟩

lemma hasSub_of_matchesAt (n l : List Char) (h : matchesAt n l = true) : hasSub n l = true := by
  cases l with
  | nil =>
    cases n with
    | nil => rfl
    | cons a as => exact absurd h (by rw [matchesAt]; simp)
  | cons b bs =>
    rw [hasSub]
    simp only [Bool.or_eq_true]
    exact Or.inl h

lemma hasSub_append_left (n : List Char) :
    ∀ pre hay : List Char, hasSub n hay = true → hasSub n (pre ++ hay) = true := by
  intro pre
  induction pre with
  | nil => intro hay h; exact h
  | cons p ps ih =>
    intro hay h
    rw [List.cons_append, hasSub]
    simp only [Bool.or_eq_true]
    exact Or.inr (ih hay h)

lemma sdata_append (a b : String) : (a ++ b).data = a.data ++ b.data := rfl

lemma hasSub_fix3 (n a b c tail : List Char) (h : matchesAt n (a ++ (b ++ c)) = true) :
    hasSub n (a ++ (b ++ (c ++ tail))) = true := by
  have he : a ++ (b ++ (c ++ tail)) = (a ++ (b ++ c)) ++ tail := by
    simp [List.append_assoc]
  rw [he]
  exact hasSub_of_matchesAt _ _ (matchesAt_append n (a ++ (b ++ c)) tail h)

/-! ### Claim theorems -/

/-- Claim C3, counterexample: on the dict mapping `ups.status` to
`"GLOB"` the code returns true, although the space-separated token list
of the status does not contain the token `"OB"` — the Python membership
test is a substring test, not token membership as the claim states. -/
theorem is_ups_on_battery_token_cex :
    is_ups_on_battery [("ups.status", "GLOB")] = some true
    ∧ (pySplit "GLOB").contains "OB" = false := by
  decide

/-- Claim C3 (amended): for every variables dict, the empty dict gives
false, and whenever `ups.status` is present the result is true iff the
status string contains `"OB"` as a contiguous substring (not: iff the
token list contains `"OB"`). -/
theorem is_ups_on_battery_substring (vars : List (String × String)) :
    (vars = [] → is_ups_on_battery vars = some false)
    ∧ (∀ s, getVar vars "ups.status" = some s →
        is_ups_on_battery vars = some (strContains s "OB")) := by
  constructor
  · intro h; subst h; rfl
  · intro s hs
    rw [is_ups_on_battery]
    cases vars with
    | nil => simp [getVar] at hs
    | cons p rest => simp [hs]

/-- Claim C3 witness: a status whose token list does contain `OB`. -/
theorem is_ups_on_battery_substring_witness :
    is_ups_on_battery [("ups.status", "OL OB")] = some true := by
  have h := (is_ups_on_battery_substring [("ups.status", "OL OB")]).2 "OL OB" (by decide)
  rw [h]
  decide

/-- Claim C10: a non-empty variables dict without the `ups.status` key
makes `is_ups_on_battery` raise (the membership test runs on `None`),
modelled by `none`; the fail-open `false` covers only the empty dict. -/
theorem is_ups_on_battery_missing_key_raises (vars : List (String × String))
    (hne : vars ≠ []) (habs : getVar vars "ups.status" = none) :
    is_ups_on_battery vars = none := by
  rw [is_ups_on_battery]
  cases vars with
  | nil => exact absurd rfl hne
  | cons p rest => simp [habs]

/-- Claim C10 witness: the error branch is reachable on a concrete
non-empty dict. -/
theorem is_ups_on_battery_missing_key_raises_witness :
    is_ups_on_battery [("battery.charge", "50")] = none :=
  is_ups_on_battery_missing_key_raises [("battery.charge", "50")] (by decide) (by decide)

/-- Claim C5: `get_ups_status` equals the spec description — map the
space-separated `ups.status` tokens through the fixed table, keep the
recognized ones, join them with `", "`, and return `"Unknown status"`
when the dict is empty, the key is absent, or no token is recognized —
together with the spec test vectors. -/
theorem get_ups_status_spec :
    (∀ vars : List (String × String),
      get_ups_status vars =
        if vars.isEmpty
            || ((pySplit (getVarD vars "ups.status" "")).filterMap fun c =>
                  getVar status_map c).isEmpty
        then "Unknown status"
        else joinComma ((pySplit (getVarD vars "ups.status" "")).filterMap fun c =>
                getVar status_map c))
    ∧ get_ups_status [("ups.status", "OL")] = "On Line"
    ∧ get_ups_status [("ups.status", "OB LB")] = "On Battery, Low Battery"
    ∧ get_ups_status [("ups.status", "")] = "Unknown status"
    ∧ get_ups_status [("other.key", "x")] = "Unknown status"
    ∧ get_ups_status [] = "Unknown status"
    ∧ get_ups_status [("ups.status", "OL ZZZ")] = "On Line" := by
  refine ⟨?_, by decide, by decide, by decide, by decide, by decide, by decide⟩
  intro vars
  cases he : vars.isEmpty with
  | true =>
    have hv : vars = [] := by
      cases vars with
      | nil => rfl
      | cons a l => simp at he
    subst hv
    rfl
  | false =>
    simp only [get_ups_status, he, Bool.false_eq_true, if_false, Bool.false_or]
    rw [known_filter (pySplit (getVarD vars "ups.status" ""))]

/-- Claim C6: with the strict default, not being on battery forces
`false` regardless of charge and threshold; otherwise (on battery, or
the check overridden) the result is true iff the charge percentage is at
most the low threshold, whenever those two reads return values. -/
theorem is_ups_battery_low_spec (d : Device) (ig : Bool) :
    (is_ups_on_battery d.upsVars = some false → ig = false →
      is_ups_battery_low d ig = some false)
    ∧ (∀ ob, is_ups_on_battery d.upsVars = some ob → (ob = true ∨ ig = true) →
        ∀ p l, get_battery_charge_percentage d.upsVars = some p →
          get_battery_charge_low_percentage d.upsRWVars = some l →
          (is_ups_battery_low d ig = some true ↔ p ≤ l)) := by
  constructor
  · intro hob hig
    subst hig
    rw [is_ups_battery_low, hob, Option.some_bind]
    simp
  · intro ob hob hcase p l hp hl
    rw [is_ups_battery_low, hob, Option.some_bind]
    have hcond : (!ob && !ig) = false := by
      rcases hcase with h | h <;> subst h <;> simp
    rw [if_neg (by simp [hcond]), hp, Option.some_bind, hl, Option.some_bind]
    simp

/-- Claim C6 witness: on mains the strict mode gives false even at
charge 80 over threshold 20; on battery at charge 10 under threshold 20,
the strict mode gives true. -/
theorem is_ups_battery_low_spec_witness :
    is_ups_battery_low dOL false = some false
    ∧ is_ups_battery_low dOBlow false = some true := by
  constructor
  · exact (is_ups_battery_low_spec dOL false).1 (by decide) rfl
  · exact ((is_ups_battery_low_spec dOBlow false).2 true (by decide) (Or.inl rfl)
      10 20 (by decide) (by decide)).mpr (by decide)

/-- Claim C7: a raised communication error in the wrapped `GetUPSVars`
call yields the empty dict — `get_ups_vars` is total (never re-raises)
and its error result coincides with a genuinely empty device reply. -/
theorem get_ups_vars_error_empty (e : String) :
    get_ups_vars (Except.error e) = []
    ∧ get_ups_vars (Except.error e) = get_ups_vars (Except.ok []) :=
  ⟨rfl, rfl⟩

/-- Claim C8, code evaluated at the failing input: when the reachability
probe raises, `is_ups_available` returns Python `None` (here `none`), not
the boolean `False` its own docstring and annotation promise; on success
it does return the probe boolean. -/
theorem is_ups_available_error_is_none :
    is_ups_available (Except.error "NUT server unreachable") = none
    ∧ is_ups_available (Except.error "NUT server unreachable") ≠ some false
    ∧ (∀ b : Bool, is_ups_available (Except.ok b) = some b) :=
  ⟨rfl, by decide, fun _ => rfl⟩

/-- Claim C1: in a successful poll cycle, a notification triggered as
"Power outage!" is sent exactly once iff the stored on-battery state was
false and the current reading is true, one triggered as
"Power restoration!" exactly once iff the stored state was true and the
reading false, and a cycle whose reading repeats the stored state sends
nothing at all. -/
theorem monitor_step_edge_events (d : Device) (ms ms' : MonitorState)
    (ns : List Notification) (cur : Bool)
    (hcur : is_ups_on_battery d.upsVars = some cur)
    (hstep : monitor_step d ms = some (ms', ns)) :
    ns.countP (fun n => titled n "Power outage!")
        = (if !ms.last_ups_on_battery_status && cur then 1 else 0)
    ∧ ns.countP (fun n => titled n "Power restoration!")
        = (if ms.last_ups_on_battery_status && !cur then 1 else 0)
    ∧ (ms.last_ups_on_battery_status = cur → ns = []) := by
  obtain ⟨r, hx, hcases⟩ := monitor_step_cases d ms (ms', ns) cur hcur hstep
  have hns : ns = r.2 := congrArg Prod.snd hx
  subst hns
  rcases hcases with ⟨hcond, hout⟩ | ⟨hcond, hrest⟩ | ⟨heq, hr⟩
  · obtain ⟨low, -, -, -, hco, hcr⟩ := outage_detail d ms r hout
    have hne : ms.last_ups_on_battery_status ≠ cur := by
      intro h
      rw [h] at hcond
      cases cur <;> simp at hcond
    refine ⟨?_, ?_, fun h => absurd h hne⟩
    · rw [hcond, if_pos rfl, hco]
    · have hrest0 : (ms.last_ups_on_battery_status && !cur) = false := by
        cases hl : ms.last_ups_on_battery_status <;> cases hc : cur <;> simp_all
      rw [hrest0, if_neg Bool.false_ne_true, hcr]
  · obtain ⟨-, -, hco, hcr⟩ := restoration_detail d ms r hrest
    have hne : ms.last_ups_on_battery_status ≠ cur := by
      intro h
      rw [h] at hcond
      cases cur <;> simp at hcond
    have hout0 : (!ms.last_ups_on_battery_status && cur) = false := by
      cases hl : ms.last_ups_on_battery_status <;> cases hc : cur <;> simp_all
    refine ⟨?_, ?_, fun h => absurd h hne⟩
    · rw [hout0, if_neg Bool.false_ne_true, hco]
    · rw [hcond, if_pos rfl, hcr]
  · have h1 : (!ms.last_ups_on_battery_status && cur) = false := by
      rw [heq]; cases cur <;> simp
    have h2 : (ms.last_ups_on_battery_status && !cur) = false := by
      rw [heq]; cases cur <;> simp
    rw [hr]
    exact ⟨by rw [h1, if_neg Bool.false_ne_true]; rfl,
      by rw [h2, if_neg Bool.false_ne_true]; rfl, fun _ => rfl⟩

/-- Claim C1 witness: from the initial state, a low on-battery snapshot
is a false-to-true edge and sends exactly one power-outage
notification. -/
theorem monitor_step_edge_events_witness :
    (monitor_step dOBlow initState).map
        (fun r => r.2.countP fun n => titled n "Power outage!") = some 1 := by
  have hs : (monitor_step dOBlow initState).isSome = true := by decide
  obtain ⟨⟨ms', ns⟩, hr⟩ := Option.isSome_iff_exists.mp hs
  have h := monitor_step_edge_events dOBlow initState ms' ns true (by decide) hr
  rw [hr]
  simp only [Option.map_some']
  rw [h.1]
  rfl

/-- Claim C2, counterexample: in the run low-outage, mains, low-outage
there are two outage edges whose first poll is on battery with charge at
or below the threshold (10 against 20), so the claim demands two
"Low battery!" notifications, but only one is sent — the
`last_ups_low_battery_status` flag survives the restoration and
suppresses the alert of the second outage. -/
theorem low_battery_second_outage_cex :
    (monitor_run [dOBlow, dOL, dOBlow] initState).map
        (fun r => (r.2.countP fun n => titled n "Low battery!",
                   r.2.countP fun n => titled n "Power outage!")) = some (1, 2)
    ∧ is_ups_on_battery dOBlow.upsVars = some true
    ∧ is_ups_battery_low dOBlow false = some true
    ∧ (monitor_run [dOBlow, dOL] initState).map
        (fun r => r.1.last_ups_on_battery_status) = some false := by
  refine ⟨by decide, by decide, by decide, by decide⟩

/-- Claim C2 (amended): on the first successful poll of an outage
(false-to-true edge) that is low in the strict sense, exactly one
"Low battery!" notification is sent if the stored
`last_ups_low_battery_status` flag is false, and none if the flag is
still true from a previous excursion (the flag is not reset at
restoration); afterwards the flag is true.  A later poll of the same
unbroken outage (true reading on true stored state) never sends it. -/
theorem low_battery_fires_once_per_flag (d : Device) (ms ms' : MonitorState)
    (ns : List Notification)
    (hstep : monitor_step d ms = some (ms', ns)) :
    (ms.last_ups_on_battery_status = false → is_ups_on_battery d.upsVars = some true →
      is_ups_battery_low d false = some true →
      ns.countP (fun n => titled n "Low battery!")
          = (if ms.last_ups_low_battery_status then 0 else 1)
        ∧ ms'.last_ups_low_battery_status = true)
    ∧ (ms.last_ups_on_battery_status = true → is_ups_on_battery d.upsVars = some true →
        ns = []) := by
  constructor
  · intro hlast hcur hlow
    obtain ⟨r, hx, hcases⟩ := monitor_step_cases d ms (ms', ns) true hcur hstep
    have hns : ns = r.2 := congrArg Prod.snd hx
    have hms' : ms' = { r.1 with last_ups_on_battery_status := true } :=
      congrArg Prod.fst hx
    rcases hcases with ⟨-, hout⟩ | ⟨hcond, -⟩ | ⟨heq, -⟩
    · obtain ⟨low, hlow2, hst, hcl, -, -⟩ := outage_detail d ms r hout
      rw [hlow] at hlow2
      have hlowtrue : low = true := Option.some.inj hlow2.symm
      subst hlowtrue
      constructor
      · rw [hns, hcl]
        cases hf : ms.last_ups_low_battery_status <;> rfl
      · rw [hms', hst]
    · rw [hlast] at hcond
      simp at hcond
    · rw [hlast] at heq
      exact absurd heq (by decide)
  · intro hlast hcur
    obtain ⟨r, hx, hcases⟩ := monitor_step_cases d ms (ms', ns) true hcur hstep
    have hns : ns = r.2 := congrArg Prod.snd hx
    rcases hcases with ⟨hcond, -⟩ | ⟨hcond, -⟩ | ⟨-, hr⟩
    · rw [hlast] at hcond
      simp at hcond
    · simp at hcond
    · rw [hns, hr]

/-- Claim C2 witness: the first low outage edge from the initial state
sends exactly one low-battery notification. -/
theorem low_battery_fires_once_per_flag_witness :
    (monitor_step dOBlow initState).map
        (fun r => r.2.countP fun n => titled n "Low battery!") = some 1 := by
  have hs : (monitor_step dOBlow initState).isSome = true := by decide
  obtain ⟨⟨ms', ns⟩, hr⟩ := Option.isSome_iff_exists.mp hs
  have h := (low_battery_fires_once_per_flag dOBlow initState ms' ns hr).1 rfl
    (by decide) (by decide)
  rw [hr]
  simp only [Option.map_some']
  rw [h.1]
  rfl

/-- Claim C9: every successful poll cycle ends with
`last_ups_on_battery_status` overwritten by the current reading, and a
power-restoration cycle (stored true, reading false) leaves
`last_ups_low_battery_status` exactly as it was; the monitor state has no
further fields that a cycle could touch. -/
theorem monitor_state_frame (d : Device) (ms ms' : MonitorState)
    (ns : List Notification) (cur : Bool)
    (hcur : is_ups_on_battery d.upsVars = some cur)
    (hstep : monitor_step d ms = some (ms', ns)) :
    ms'.last_ups_on_battery_status = cur
    ∧ (ms.last_ups_on_battery_status = true → cur = false →
        ms'.last_ups_low_battery_status = ms.last_ups_low_battery_status) := by
  obtain ⟨r, hx, hcases⟩ := monitor_step_cases d ms (ms', ns) cur hcur hstep
  have hms' : ms' = { r.1 with last_ups_on_battery_status := cur } :=
    congrArg Prod.fst hx
  constructor
  · rw [hms']
  · intro hlast hc
    subst hc
    rcases hcases with ⟨hcond, -⟩ | ⟨-, hrest⟩ | ⟨heq, -⟩
    · rw [hlast] at hcond
      simp at hcond
    · have := (restoration_detail d ms r hrest).1
      rw [hms', this]
    · rw [hlast] at heq
      exact absurd heq (by decide)

/-- Claim C9 witness: a restoration step overwrites the on-battery flag
with false and keeps the low flag true. -/
theorem monitor_state_frame_witness :
    (monitor_step dOL ⟨true, true⟩).map
        (fun r => (r.1.last_ups_on_battery_status, r.1.last_ups_low_battery_status))
      = some (false, true) := by
  have hs : (monitor_step dOL ⟨true, true⟩).isSome = true := by decide
  obtain ⟨⟨ms', ns⟩, hr⟩ := Option.isSome_iff_exists.mp hs
  have h := monitor_state_frame dOL ⟨true, true⟩ ms' ns false (by decide) hr
  rw [hr]
  simp only [Option.map_some']
  rw [h.1, h.2 rfl rfl]


/-- Claim C4: at any device state where the two low-battery query modes
disagree (the permissive `ignore_ob=True` reads true while the strict
default reads false — only possible off battery with charge at or below
the threshold), every status notification body reports
"Low Battery: <b>Yes</b>" (so the body queries the permissive mode),
while the power-outage handler sends no "Low battery!" notification (so
its re-check queries the strict default). -/
theorem status_body_vs_outage_modes (d : Device) (ms : MonitorState)
    (hperm : is_ups_battery_low d true = some true)
    (hstrict : is_ups_battery_low d false = some false) :
    (∀ t n, send_ups_status_notification d t = some n →
        strContains n.body "Low Battery: <b>Yes</b>" = true)
    ∧ (∀ r, handle_power_outage d ms = some r →
        r.2.countP (fun n => titled n "Low battery!") = 0) := by
  constructor
  · intro t n h
    rw [send_ups_status_notification] at h
    simp only [Option.bind_eq_some, Option.some.injEq] at h
    obtain ⟨pct, -, low, hlow, watts, -, hn⟩ := h
    rw [hperm] at hlow
    have hl : low = true := Option.some.inj hlow.symm
    subst hl
    subst hn
    dsimp only
    rw [if_pos rfl, strContains]
    simp only [sdata_append, List.append_assoc]
    apply hasSub_append_left
    apply hasSub_append_left
    apply hasSub_append_left
    apply hasSub_append_left
    apply hasSub_append_left
    apply hasSub_append_left
    exact hasSub_fix3 _ _ _ _ _ (by decide)
  · intro r h
    obtain ⟨low, hlow2, -, hcl, -, -⟩ := outage_detail d ms r h
    rw [hstrict] at hlow2
    have hl : low = false := Option.some.inj hlow2.symm
    subst hl
    rw [hcl]
    rfl

/-- Claim C4 witness: on mains with charge 10 under threshold 20 the two
modes disagree; the status body then says Yes while the outage handler
sends no low-battery notification. -/
theorem status_body_vs_outage_modes_witness :
    (send_ups_status_notification dOLlow "Status").map
        (fun n => strContains n.body "Low Battery: <b>Yes</b>") = some true
    ∧ (handle_power_outage dOLlow initState).map
        (fun r => r.2.countP fun n => titled n "Low battery!") = some 0 := by
  have h := status_body_vs_outage_modes dOLlow initState (by decide) (by decide)
  constructor
  · have hs : (send_ups_status_notification dOLlow "Status").isSome = true := by decide
    obtain ⟨n, hn⟩ := Option.isSome_iff_exists.mp hs
    rw [hn]
    simp only [Option.map_some']
    rw [h.1 "Status" n hn]
  · have hs : (handle_power_outage dOLlow initState).isSome = true := by decide
    obtain ⟨r, hr⟩ := Option.isSome_iff_exists.mp hs
    rw [hr]
    simp only [Option.map_some']
    rw [h.2 r hr]

end TeleUPS






